import Mathlib

/-!
Shallow embedding of the `bluecode_challenge` payment/refund service.

Source files embedded:
  * `src/bank/refunds.rs` — the refund workflow (`insert`, `get_payment_refund`).
  * `src/bank_web/payments.rs` — the payment HTTP handlers (`post`, `get`).
  * `src/errors.rs` — the `CustomError` variants the refund workflow produces.

Modelling conventions:
  * `Uuid` is modelled as `Nat`; `Uuid::nil()` is `0`.
  * Rust `i32` amounts are modelled as `Int` (no claim under study depends on
    two's-complement wrap-around).
  * Timestamp columns (`inserted_at`, `updated_at`) are omitted: no embedded
    operation reads or branches on them.
  * The database is an explicit state value (`Db`); each SQL statement is one
    atomic step on it.  `SELECT ... WHERE` / `fetch_optional` is `List.find?`,
    `UPDATE ... WHERE` is a `List.map` guarded on the key, `INSERT ... RETURNING`
    appends a row with a fresh id drawn from a counter.
  * `bank/payments.rs` and `bank/accounts.rs` are not part of the provided
    source; `payments_get` / `payments_insert` are modelled from the spec (see
    their doc comments) and the account service is an explicit oracle record.
  * Rust `panic!` / `.unwrap()` on an `Err` is the explicit outcome
    `PostOutcome.panic`.
-/

/-- Decidable equality for `Except`, so concrete runs can be checked with
`decide`. -/
instance {ε α : Type} [DecidableEq ε] [DecidableEq α] : DecidableEq (Except ε α) := fun x y =>
  match x, y with
  | Except.ok a, Except.ok b =>
      if h : a = b then isTrue (by rw [h])
      else isFalse (by intro he; cases he; exact h rfl)
  | Except.ok _, Except.error _ => isFalse (by intro h; cases h)
  | Except.error _, Except.ok _ => isFalse (by intro h; cases h)
  | Except.error a, Except.error b =>
      if h : a = b then isTrue (by rw [h])
      else isFalse (by intro he; cases he; exact h rfl)

/-- `bank::payments::Status` (declared in the missing `bank/payments.rs`, but
fully determined by its uses in the provided source: `Approved` and `Declined`). -/
inductive Status where
  | Approved
  | Declined
deriving DecidableEq, Repr

/-- `bank::payments::Payment` row: id, amount, card number (the account
reference) and status.  Timestamps omitted. -/
structure Payment where
  id : Nat
  amount : Int
  card_number : String
  status : Status
deriving DecidableEq, Repr

/-- `bank::refunds::Refund` row: the `amount` field is the cumulative refunded
amount for `payment_id`.  Timestamps omitted. -/
structure Refund where
  id : Nat
  payment_id : Nat
  amount : Int
deriving DecidableEq, Repr

/-- `bank_web::refunds::ResponseData` as used by `refunds::insert`
(`ResponseData::new(id, payment_id, amount)`). -/
structure RefundResponse where
  id : Nat
  payment_id : Nat
  amount : Int
deriving DecidableEq, Repr

/-- The `errors::CustomError` variants reachable from the embedded code.
The source's field spelling `AmoutRefundFailed` is kept. -/
inductive CustomError where
  | Sql (message : String)
  | AmoutRefundFailed (code : Int) (message : String)
  | PaymentNotExist (code : Int) (message : String)
deriving DecidableEq, Repr

/-- The durable state: the `payments` and `refunds` tables plus the id
generators for `INSERT ... RETURNING`. -/
structure Db where
  payments : List Payment
  refunds : List Refund
  next_payment_id : Nat
  next_refund_id : Nat
deriving DecidableEq, Repr

/-- Modelled from the spec: `bank::payments::get(pool, id)` (the file
`bank/payments.rs` is not in the provided source; `GetPayment(id) ->
Payment | NotFound`, and its caller in `bank/refunds.rs` matches on
`Ok`/`Err`, so the lookup returns `Err` — sqlx `RowNotFound` — when no
payment with that id exists). -/
def payments_get (db : Db) (id : Nat) : Except String Payment :=
  match db.payments.find? (fun p => p.id == id) with
  | some p => Except.ok p
  | none => Except.error "RowNotFound"

/-- `bank::refunds::get_payment_refund`: `SELECT ... FROM refunds WHERE
payment_id = $1` with `fetch_optional` — the first matching row, if any. -/
def get_payment_refund (db : Db) (payment_id : Nat) : Option Refund :=
  db.refunds.find? (fun r => r.payment_id == payment_id)

/-- `bank::refunds::insert(pool, payment_id, amount)`: look up the payment,
require `Status::Approved`, then either update the existing refund row to
`refund.amount + amount` or insert a fresh row with `amount`, in both cases
guarded by the payment's amount.  Returns the result together with the
database state after the call. -/
def refunds_insert (db : Db) (payment_id : Nat) (amount : Int) :
    Except CustomError RefundResponse × Db :=
  match payments_get db payment_id with
  | Except.error err =>
      (Except.error (CustomError.PaymentNotExist 404
        ("Failed to refund the amount " ++ err)), db)
  | Except.ok x =>
      let payment_fund := x.amount
      if x.status = Status.Approved then
        match get_payment_refund db x.id with
        | some refund =>
            let total := refund.amount + amount
            if total ≤ payment_fund then
              let refunds := db.refunds.map (fun r =>
                if r.payment_id == payment_id then { r with amount := total } else r)
              match refunds.find? (fun r => r.payment_id == payment_id) with
              | some s =>
                  (Except.ok ⟨s.id, s.payment_id, s.amount⟩, { db with refunds := refunds })
              | none =>
                  (Except.error (CustomError.Sql "RowNotFound"), { db with refunds := refunds })
            else
              (Except.error (CustomError.AmoutRefundFailed 422
                "The amount is more than the refundable amount"), db)
        | none =>
            if payment_fund ≥ amount then
              let row : Refund := ⟨db.next_refund_id, payment_id, amount⟩
              (Except.ok ⟨row.id, row.payment_id, row.amount⟩,
               { db with refunds := db.refunds ++ [row],
                         next_refund_id := db.next_refund_id + 1 })
            else
              (Except.error (CustomError.AmoutRefundFailed 422
                "The amount is more than the refundable amount"), db)
      else
        (Except.error (CustomError.PaymentNotExist 404 "Failed to refund the amount "), db)

/-- Iterate `refunds_insert` over a sequence of requested refund amounts
against one payment, keeping only the evolving database state. -/
def run_refunds (db : Db) (payment_id : Nat) : List Int → Db
  | [] => db
  | a :: rest => run_refunds (refunds_insert db payment_id a).2 payment_id rest

/-- The decision `refunds::insert` reaches after its read statements (the
payment `SELECT`, the refund `SELECT`, and the in-process comparison against
`payment_fund`), before its write statement runs. -/
inductive RefundDecision where
  | failNotExist (message : String)
  | failRefund
  | updateTo (total : Int)
  | insertNew (amount : Int)
deriving DecidableEq, Repr

/-- The read half of `refunds::insert`: everything up to (but excluding) the
`UPDATE`/`INSERT` statement, evaluated against a database snapshot.  The
function runs no SQL transaction, so between this snapshot and the write
another request's statements may run. -/
def refund_read_phase (db : Db) (payment_id : Nat) (amount : Int) : RefundDecision :=
  match payments_get db payment_id with
  | Except.error err => RefundDecision.failNotExist ("Failed to refund the amount " ++ err)
  | Except.ok x =>
      if x.status = Status.Approved then
        match get_payment_refund db x.id with
        | some refund =>
            let total := refund.amount + amount
            if total ≤ x.amount then RefundDecision.updateTo total
            else RefundDecision.failRefund
        | none =>
            if x.amount ≥ amount then RefundDecision.insertNew amount
            else RefundDecision.failRefund
      else RefundDecision.failNotExist "Failed to refund the amount "

/-- The write half of `refunds::insert`: the single `UPDATE`/`INSERT`
statement applied to the (possibly changed) current database state. -/
def refund_write_phase (db : Db) (payment_id : Nat) :
    RefundDecision → Except CustomError RefundResponse × Db
  | RefundDecision.failNotExist m =>
      (Except.error (CustomError.PaymentNotExist 404 m), db)
  | RefundDecision.failRefund =>
      (Except.error (CustomError.AmoutRefundFailed 422
        "The amount is more than the refundable amount"), db)
  | RefundDecision.updateTo total =>
      let refunds := db.refunds.map (fun r =>
        if r.payment_id == payment_id then { r with amount := total } else r)
      match refunds.find? (fun r => r.payment_id == payment_id) with
      | some s => (Except.ok ⟨s.id, s.payment_id, s.amount⟩, { db with refunds := refunds })
      | none => (Except.error (CustomError.Sql "RowNotFound"), { db with refunds := refunds })
  | RefundDecision.insertNew amount =>
      let row : Refund := ⟨db.next_refund_id, payment_id, amount⟩
      (Except.ok ⟨row.id, row.payment_id, row.amount⟩,
       { db with refunds := db.refunds ++ [row],
                 next_refund_id := db.next_refund_id + 1 })

/-- `bank_web::payments::RequestData`. -/
structure RequestData where
  amount : Int
  card_number : String
deriving DecidableEq, Repr

/-- `bank_web::payments::RequestBody`. -/
structure RequestBody where
  payment : RequestData
deriving DecidableEq, Repr

/-- `bank_web::payments::ResponseData`. -/
structure PaymentResponseData where
  id : Nat
  amount : Int
  card_number : String
  status : Status
deriving DecidableEq, Repr

/-- A call the `post` handler makes on the account service (`bank/accounts.rs`
is not in the provided source; the three operations and their order of use are
visible at the call sites in `bank_web/payments.rs`). -/
inductive SvcCall where
  | place_hold (card_number : String) (amount : Int)
  | withdraw_funds (token : Nat)
  | release_hold (token : Nat)
deriving DecidableEq, Repr

/-- Responses of the account service collaborator, as an oracle: `place_hold`
yields a hold token or the decline-reason string the handler matches on;
`withdraw_funds` / `release_hold` yield `ok` or an error. -/
structure AccountSvc where
  place_hold : String → Int → Except String Nat
  withdraw_funds : Nat → Except String Unit
  release_hold : Nat → Except String Unit

/-- Outcome of an HTTP handler: `Ok((status, body))`, `Err((status, error))`,
or a Rust panic (`.unwrap()` on an `Err`). -/
inductive PostOutcome where
  | ok (status : Nat) (data : PaymentResponseData)
  | err (status : Nat) (error : String)
  | panic
deriving DecidableEq, Repr

/-- Modelled from the spec: `bank::payments::insert(pool, amount, card_number,
status)` (the file `bank/payments.rs` is not in the provided source).  Per the
spec, persistence fails on a uniqueness violation — the `account_reference`
(card number) is already used by a prior approved payment; otherwise a fresh
row is created and its id returned. -/
def payments_insert (db : Db) (amount : Int) (card_number : String) (status : Status) :
    Except String (Nat × Db) :=
  if db.payments.any (fun p => p.card_number == card_number && p.status == Status.Approved) then
    Except.error "unique_violation"
  else
    let p : Payment := ⟨db.next_payment_id, amount, card_number, status⟩
    Except.ok (p.id, { db with payments := db.payments ++ [p],
                               next_payment_id := db.next_payment_id + 1 })

/-- `bank_web::payments::post`: reject a zero amount, place a hold, persist the
payment; on persistence success withdraw the held funds and echo the stored
payment, on persistence failure release the hold and return a 422 conflict;
map `place_hold` decline reasons to declined results or errors.  Returns the
handler outcome, the database after the call, and the trace of account-service
calls in order. -/
def post (svc : AccountSvc) (db : Db) (body : RequestBody) :
    PostOutcome × Db × List SvcCall :=
  if body.payment.amount = 0 then
    (PostOutcome.err 204 "zero amount", db, [])
  else
    match svc.place_hold body.payment.card_number body.payment.amount with
    | Except.ok token =>
        match payments_insert db body.payment.amount body.payment.card_number Status.Approved with
        | Except.ok (some_payment_id, db1) =>
            let calls := [SvcCall.place_hold body.payment.card_number body.payment.amount,
                          SvcCall.withdraw_funds token]
            match svc.withdraw_funds token with
            | Except.ok _ =>
                match payments_get db1 some_payment_id with
                | Except.ok payment =>
                    (PostOutcome.ok 201
                      ⟨payment.id, payment.amount, payment.card_number, payment.status⟩,
                     db1, calls)
                | Except.error _ => (PostOutcome.panic, db1, calls)
            | Except.error _ => (PostOutcome.panic, db1, calls)
        | Except.error _ =>
            let calls := [SvcCall.place_hold body.payment.card_number body.payment.amount,
                          SvcCall.release_hold token]
            match svc.release_hold token with
            | Except.ok _ => (PostOutcome.err 422 "card_number already used", db, calls)
            | Except.error _ => (PostOutcome.panic, db, calls)
    | Except.error errmsg =>
        let calls := [SvcCall.place_hold body.payment.card_number body.payment.amount]
        if errmsg = "invalid_account_number" then
          (PostOutcome.ok 403
            ⟨0, body.payment.amount, body.payment.card_number, Status.Declined⟩, db, calls)
        else if errmsg = "invalid_amount" then
          (PostOutcome.err 400 "invalid amount", db, calls)
        else if errmsg = "insufficient_funds" then
          (PostOutcome.ok 402
            ⟨0, body.payment.amount, body.payment.card_number, Status.Declined⟩, db, calls)
        else
          (PostOutcome.err 204 "cannot process the request", db, calls)

/-- `bank_web::payments::get`: `payments::get(&pool, payment_id).await.unwrap()`
— the looked-up payment is echoed with status 200, and a failed lookup is
unwrapped, i.e. the handler panics. -/
def get_handler (db : Db) (payment_id : Nat) : PostOutcome :=
  match payments_get db payment_id with
  | Except.ok payment =>
      PostOutcome.ok 200 ⟨payment.id, payment.amount, payment.card_number, payment.status⟩
  | Except.error _ => PostOutcome.panic

/-- Concrete fixture: empty database. -/
def dbEmpty : Db := ⟨[], [], 0, 0⟩

/-- Concrete fixture: one approved payment of 50 (id 1), no refunds yet. -/
def dbApproved : Db := ⟨[⟨1, 50, "4111", Status.Approved⟩], [], 2, 0⟩

/-- Concrete fixture: one approved payment of 50 (id 1) with an existing
refund row of cumulative amount 30 (row id 7). -/
def dbWithRefund : Db := ⟨[⟨1, 50, "4111", Status.Approved⟩], [⟨7, 1, 30⟩], 2, 8⟩

/-- Concrete fixture: one declined payment of 50 (id 1). -/
def dbDeclined : Db := ⟨[⟨1, 50, "4111", Status.Declined⟩], [], 2, 0⟩

/-- Concrete fixture: an account service whose three operations all succeed,
issuing hold token 7. -/
def svcAllOk : AccountSvc :=
  ⟨fun _ _ => Except.ok 7, fun _ => Except.ok (), fun _ => Except.ok ()⟩

/-- Concrete fixture: an account service declining every hold with the given
reason string. -/
def svcDecline (reason : String) : AccountSvc :=
  ⟨fun _ _ => Except.error reason, fun _ => Except.ok (), fun _ => Except.ok ()⟩

/-- Faithfulness of the split: running the read phase and then immediately the
write phase on an unchanged database is exactly `refunds_insert`. -/
theorem refunds_insert_phase_split (db : Db) (payment_id : Nat) (amount : Int) :
    refunds_insert db payment_id amount =
      refund_write_phase db payment_id (refund_read_phase db payment_id amount) := by
  unfold refunds_insert refund_read_phase refund_write_phase
  cases payments_get db payment_id with
  | error err => rfl
  | ok x =>
      by_cases hs : x.status = Status.Approved
      · simp only [hs, if_true]
        cases get_payment_refund db x.id with
        | some refund =>
            by_cases ht : refund.amount + amount ≤ x.amount
            · simp only [ht, if_true]
            · simp only [ht, if_false]
        | none =>
            by_cases ha : x.amount ≥ amount
            · simp only [ha, if_true]
            · simp only [ha, if_false]
      · simp only [hs, if_false]

/-- `payments_get` is a keyed lookup: a successful result carries the id it
was asked for. -/
theorem payments_get_id {db : Db} {id : Nat} {x : Payment}
    (h : payments_get db id = Except.ok x) : x.id = id := by
  unfold payments_get at h
  cases hf : db.payments.find? (fun p => p.id == id) with
  | none => rw [hf] at h; cases h
  | some p =>
      rw [hf] at h
      cases h
      have := List.find?_some hf
      simpa using this

/-- `refunds_insert` never touches the payments table. -/
theorem refunds_insert_payments (db : Db) (payment_id : Nat) (amount : Int) :
    (refunds_insert db payment_id amount).2.payments = db.payments := by
  unfold refunds_insert
  cases payments_get db payment_id with
  | error err => rfl
  | ok x =>
      by_cases hs : x.status = Status.Approved
      · simp only [hs, if_true]
        cases get_payment_refund db x.id with
        | some refund =>
            by_cases ht : refund.amount + amount ≤ x.amount
            · simp only [ht, if_true]
              cases hf : (db.refunds.map (fun r =>
                  if r.payment_id == payment_id then { r with amount := refund.amount + amount }
                  else r)).find? (fun r => r.payment_id == payment_id) <;> simp [hf]
            · simp only [ht, if_false]
        | none =>
            by_cases ha : x.amount ≥ amount
            · simp only [ha, if_true]
            · simp only [ha, if_false]
      · simp only [hs, if_false]

/-- Updating all rows keyed by `payment_id` rewrites the first matching row in
place: `find?` after the keyed `map` returns that row with the new amount. -/
theorem find?_update_first {l : List Refund} {payment_id : Nat} {r : Refund} (total : Int)
    (h : l.find? (fun q => q.payment_id == payment_id) = some r) :
    (l.map (fun q =>
        if q.payment_id == payment_id then { q with amount := total } else q)).find?
      (fun q => q.payment_id == payment_id) = some { r with amount := total } := by
  induction l with
  | nil => cases h
  | cons a l ih =>
      by_cases ha : (a.payment_id == payment_id) = true
      · simp only [List.find?, ha] at h
        cases h
        simp [List.find?, ha]
      · simp only [List.find?, ha] at h
        have ha' : (a.payment_id == payment_id) = false := by simpa using ha
        simp only [List.map_cons, ha', Bool.false_eq_true, if_false, List.find?]
        exact ih h

/-- The payments table survives a refund call unchanged, so payment lookups
before and after the call agree. -/
theorem payments_get_stable (db : Db) (payment_id : Nat) (amount : Int) (id : Nat) :
    payments_get (refunds_insert db payment_id amount).2 id = payments_get db id := by
  unfold payments_get
  rw [refunds_insert_payments]

/-- One `refunds_insert` call preserves the refund bound: every refund row for
the target payment stays at most the payment's amount. -/
theorem refund_step_inv (db : Db) (payment_id : Nat) (amount : Int) (p : Payment)
    (hp : payments_get db payment_id = Except.ok p)
    (hInv : ∀ r ∈ db.refunds, r.payment_id = payment_id → r.amount ≤ p.amount) :
    ∀ r ∈ (refunds_insert db payment_id amount).2.refunds, r.payment_id = payment_id →
      r.amount ≤ p.amount := by
  unfold refunds_insert
  rw [hp]
  by_cases hs : p.status = Status.Approved
  · simp only [hs, if_true]
    cases hr : get_payment_refund db p.id with
    | some refund =>
        by_cases ht : refund.amount + amount ≤ p.amount
        · simp only [ht, if_true]
          have hmap : ∀ r ∈ db.refunds.map (fun q =>
              if q.payment_id == payment_id then { q with amount := refund.amount + amount }
              else q), r.payment_id = payment_id → r.amount ≤ p.amount := by
            intro r hrmem hrpid
            rcases List.mem_map.mp hrmem with ⟨q, hq, hqr⟩
            by_cases hqp : (q.payment_id == payment_id) = true
            · rw [if_pos hqp] at hqr
              cases hqr
              exact ht
            · rw [if_neg hqp] at hqr
              cases hqr
              exact hInv _ hq hrpid
          cases hf : (db.refunds.map (fun q =>
              if q.payment_id == payment_id then { q with amount := refund.amount + amount }
              else q)).find? (fun q => q.payment_id == payment_id) with
          | some s => simp only [hf]; exact hmap
          | none => simp only [hf]; exact hmap
        · simp only [ht, if_false]; exact hInv
    | none =>
        by_cases ha : p.amount ≥ amount
        · simp only [ha, if_true]
          intro r hrmem hrpid
          rcases List.mem_append.mp hrmem with hmem | hmem
          · exact hInv r hmem hrpid
          · rw [List.mem_singleton] at hmem
            cases hmem
            exact ha
        · simp only [ha, if_false]; exact hInv
  · simp only [hs, if_false]; exact hInv

/-- C1 (refund bound invariant): for every payment and every sequence of
`CreateRefund` (`refunds::insert`) requests against it, every refund row
persisted for that payment — in particular the cumulative refund amount —
never exceeds the payment's amount. -/
theorem refund_bound (db : Db) (payment_id : Nat) (p : Payment) (amts : List Int)
    (hp : payments_get db payment_id = Except.ok p)
    (hInv : ∀ r ∈ db.refunds, r.payment_id = payment_id → r.amount ≤ p.amount) :
    ∀ r ∈ (run_refunds db payment_id amts).refunds, r.payment_id = payment_id →
      r.amount ≤ p.amount := by
  induction amts generalizing db with
  | nil => exact hInv
  | cons a rest ih =>
      exact ih (refunds_insert db payment_id a).2
        (by rw [payments_get_stable]; exact hp)
        (refund_step_inv db payment_id a p hp hInv)

/-- Witness for C1: spec scenario 6 — payment of 50, refund requests
30, 25, 20; every persisted refund row stays at most 50. -/
theorem refund_bound_witness :
    payments_get dbApproved 1 = Except.ok ⟨1, 50, "4111", Status.Approved⟩ ∧
    (∀ r ∈ (run_refunds dbApproved 1 [30, 25, 20]).refunds,
      r.payment_id = 1 → r.amount ≤ (50 : Int)) :=
  ⟨by decide,
   refund_bound dbApproved 1 ⟨1, 50, "4111", Status.Approved⟩ [30, 25, 20]
     (by decide) (by simp [dbApproved])⟩

/-- C4 (CreateRefund target validation): when the payment lookup fails or the
payment is not approved, `refunds::insert` returns a `PaymentNotExist` error
and leaves the database — in particular the refund ledger — unchanged. -/
theorem refund_target_validation (db : Db) (payment_id : Nat) (amount : Int)
    (h : (∃ e, payments_get db payment_id = Except.error e) ∨
         (∃ x, payments_get db payment_id = Except.ok x ∧ x.status ≠ Status.Approved)) :
    (∃ m, (refunds_insert db payment_id amount).1 =
        Except.error (CustomError.PaymentNotExist 404 m)) ∧
    (refunds_insert db payment_id amount).2 = db := by
  unfold refunds_insert
  rcases h with ⟨e, he⟩ | ⟨x, hx, hs⟩
  · rw [he]
    exact ⟨⟨"Failed to refund the amount " ++ e, rfl⟩, rfl⟩
  · rw [hx]
    simp only [hs, if_false]
    exact ⟨⟨"Failed to refund the amount ", rfl⟩, trivial⟩

/-- C3 (CreateRefund conditional write): for an approved payment, with no
existing refund row the candidate total is the requested amount and a row with
that amount is inserted iff it is at most the payment's amount; with an
existing row the candidate total is `existing.amount + amount` and the row is
updated to it iff it is at most the payment's amount; otherwise the call fails
with `AmoutRefundFailed` and the database is unchanged. -/
theorem refund_conditional_write (db : Db) (payment_id : Nat) (amount : Int) (x : Payment)
    (hget : payments_get db payment_id = Except.ok x)
    (happ : x.status = Status.Approved) :
    (get_payment_refund db payment_id = none →
       (amount ≤ x.amount →
          (refunds_insert db payment_id amount).1 =
            Except.ok ⟨db.next_refund_id, payment_id, amount⟩ ∧
          (refunds_insert db payment_id amount).2.refunds =
            db.refunds ++ [⟨db.next_refund_id, payment_id, amount⟩]) ∧
       (x.amount < amount →
          (refunds_insert db payment_id amount).1 =
            Except.error (CustomError.AmoutRefundFailed 422
              "The amount is more than the refundable amount") ∧
          (refunds_insert db payment_id amount).2 = db)) ∧
    (∀ r, get_payment_refund db payment_id = some r →
       (r.amount + amount ≤ x.amount →
          (refunds_insert db payment_id amount).1 =
            Except.ok ⟨r.id, r.payment_id, r.amount + amount⟩ ∧
          get_payment_refund (refunds_insert db payment_id amount).2 payment_id =
            some { r with amount := r.amount + amount }) ∧
       (x.amount < r.amount + amount →
          (refunds_insert db payment_id amount).1 =
            Except.error (CustomError.AmoutRefundFailed 422
              "The amount is more than the refundable amount") ∧
          (refunds_insert db payment_id amount).2 = db)) := by
  have hid : x.id = payment_id := payments_get_id hget
  unfold refunds_insert
  simp only [hget, happ, if_true]
  rw [hid]
  constructor
  · intro hnone
    simp only [hnone]
    constructor
    · intro hle
      rw [if_pos hle]
      exact ⟨rfl, rfl⟩
    · intro hlt
      rw [if_neg (not_le.mpr hlt)]
      exact ⟨rfl, rfl⟩
  · intro r hsome
    simp only [hsome]
    constructor
    · intro hle
      rw [if_pos hle]
      have hf0 : db.refunds.find? (fun q => q.payment_id == payment_id) = some r := hsome
      have hfind := find?_update_first (r.amount + amount) hf0
      simp only [hfind]
      exact ⟨trivial, hfind⟩
    · intro hlt
      rw [if_neg (not_le.mpr hlt)]
      exact ⟨rfl, rfl⟩

/-- Witness for C3: payment of 50 with no prior refund — a request of 30 is
inserted as the new row; the resulting state matches the claim's shape. -/
theorem refund_conditional_write_witness :
    (payments_get dbApproved 1 = Except.ok ⟨1, 50, "4111", Status.Approved⟩ ∧
      Status.Approved = Status.Approved ∧
      get_payment_refund dbApproved 1 = none ∧ (30 : Int) ≤ 50) ∧
    ((refunds_insert dbApproved 1 30).1 = Except.ok ⟨0, 1, 30⟩ ∧
      (refunds_insert dbApproved 1 30).2.refunds = dbApproved.refunds ++ [⟨0, 1, 30⟩]) :=
  ⟨⟨by decide, rfl, by decide, by decide⟩,
   ((refund_conditional_write dbApproved 1 30 ⟨1, 50, "4111", Status.Approved⟩
       (by decide) rfl).1 (by decide)).1 (by decide)⟩

/-- Counterexample for C9 as stated: a successful `refunds::insert` with a
negative requested delta decreases the stored cumulative amount (payment 50,
stored refund 30, request -10 succeeds and stores 20 < 30). -/
theorem refund_negative_delta_decreases :
    get_payment_refund dbWithRefund 1 = some ⟨7, 1, 30⟩ ∧
    (refunds_insert dbWithRefund 1 (-10)).1 = Except.ok ⟨7, 1, 20⟩ ∧
    get_payment_refund (refunds_insert dbWithRefund 1 (-10)).2 1 = some ⟨7, 1, 20⟩ ∧
    (20 : Int) < 30 := by decide

/-- C9 amended (refund monotonicity for non-negative deltas): every successful
`refunds::insert` call that updates an existing refund row with a requested
delta `amount ≥ 0` leaves the stored cumulative amount no smaller than before. -/
theorem refund_update_monotonic (db : Db) (payment_id : Nat) (amount : Int)
    (r : Refund) (resp : RefundResponse)
    (hAmt : 0 ≤ amount)
    (hBefore : get_payment_refund db payment_id = some r)
    (hOk : (refunds_insert db payment_id amount).1 = Except.ok resp) :
    r.amount ≤ resp.amount ∧
    get_payment_refund (refunds_insert db payment_id amount).2 payment_id =
      some { r with amount := resp.amount } := by
  unfold refunds_insert at hOk ⊢
  cases hget : payments_get db payment_id with
  | error e => simp only [hget] at hOk; cases hOk
  | ok x =>
      have hid : x.id = payment_id := payments_get_id hget
      simp only [hget] at hOk ⊢
      by_cases hs : x.status = Status.Approved
      · simp only [hs, if_true] at hOk ⊢
        rw [hid] at hOk ⊢
        simp only [hBefore] at hOk ⊢
        by_cases ht : r.amount + amount ≤ x.amount
        · simp only [ht, if_true] at hOk ⊢
          have hf0 : db.refunds.find? (fun q => q.payment_id == payment_id) = some r := hBefore
          have hfind := find?_update_first (r.amount + amount) hf0
          simp only [hfind] at hOk ⊢
          cases hOk
          exact ⟨le_add_of_nonneg_right hAmt, hfind⟩
        · simp only [ht, if_false] at hOk
          cases hOk
      · simp only [hs, if_false] at hOk
        cases hOk

/-- Witness for C9's amended theorem: payment 50, stored refund 30, delta 15 —
the update succeeds and the stored amount rises from 30 to 45. -/
theorem refund_update_monotonic_witness :
    ((0 : Int) ≤ 15 ∧ get_payment_refund dbWithRefund 1 = some ⟨7, 1, 30⟩ ∧
      (refunds_insert dbWithRefund 1 15).1 = Except.ok ⟨7, 1, 45⟩) ∧
    ((30 : Int) ≤ 45 ∧
      get_payment_refund (refunds_insert dbWithRefund 1 15).2 1 = some ⟨7, 1, 45⟩) :=
  ⟨⟨by decide, by decide, by decide⟩,
   refund_update_monotonic dbWithRefund 1 15 ⟨7, 1, 30⟩ ⟨7, 1, 45⟩
     (by decide) (by decide) (by decide)⟩

/-- C2 fails on the code (no transaction or lock serializes the refund
read-then-write): against a payment of 50 with an existing refund of 30
(remaining balance 20), two requests of 15 and 10 — each at most 20, together
above it — both read before either writes, and both invocations succeed. -/
theorem refund_race_both_succeed :
    ((15 : Int) ≤ 50 - 30 ∧ (10 : Int) ≤ 50 - 30 ∧ (50 - 30 : Int) < 15 + 10) ∧
    (refund_write_phase dbWithRefund 1 (refund_read_phase dbWithRefund 1 15)).1 =
      Except.ok ⟨7, 1, 45⟩ ∧
    (refund_write_phase
        (refund_write_phase dbWithRefund 1 (refund_read_phase dbWithRefund 1 15)).2 1
        (refund_read_phase dbWithRefund 1 10)).1 = Except.ok ⟨7, 1, 40⟩ := by
  decide

/-- Witness for C4: refunding against a declined payment (and the same shape
covers a missing one) fails with `PaymentNotExist` and mutates nothing. -/
theorem refund_target_validation_witness :
    (payments_get dbDeclined 1 = Except.ok ⟨1, 50, "4111", Status.Declined⟩ ∧
      Status.Declined ≠ Status.Approved) ∧
    (∃ m, (refunds_insert dbDeclined 1 10).1 =
        Except.error (CustomError.PaymentNotExist 404 m)) ∧
    (refunds_insert dbDeclined 1 10).2 = dbDeclined :=
  ⟨⟨by decide, by decide⟩,
   refund_target_validation dbDeclined 1 10
     (Or.inr ⟨⟨1, 50, "4111", Status.Declined⟩, by decide, by decide⟩)⟩

/-- C6 (zero-amount validation): a `post` request with amount 0 returns the
validation error before any external call — the account-service trace is
empty (no hold placed) and the database is unchanged. -/
theorem post_zero_amount (svc : AccountSvc) (db : Db) (body : RequestBody)
    (h : body.payment.amount = 0) :
    (post svc db body).1 = PostOutcome.err 204 "zero amount" ∧
    (post svc db body).2.1 = db ∧
    (post svc db body).2.2 = [] := by
  unfold post
  rw [if_pos h]
  exact ⟨rfl, rfl, rfl⟩

/-- Witness for C6: a concrete zero-amount request is rejected with no hold
and no persistence. -/
theorem post_zero_amount_witness :
    (post svcAllOk dbEmpty ⟨⟨0, "4111"⟩⟩).1 = PostOutcome.err 204 "zero amount" ∧
    (post svcAllOk dbEmpty ⟨⟨0, "4111"⟩⟩).2.1 = dbEmpty ∧
    (post svcAllOk dbEmpty ⟨⟨0, "4111"⟩⟩).2.2 = [] :=
  post_zero_amount svcAllOk dbEmpty ⟨⟨0, "4111"⟩⟩ rfl

/-- C5 (compensation on duplicate instrument): when `place_hold` succeeds and
payment persistence fails, `post` releases the issued hold token exactly once
before returning, persists nothing, and returns the 422 conflict error — an
`Err`, distinct from a declined `Ok` result. -/
theorem post_duplicate_compensation (svc : AccountSvc) (db : Db) (body : RequestBody)
    (token : Nat) (e : String)
    (hAmt : body.payment.amount ≠ 0)
    (hHold : svc.place_hold body.payment.card_number body.payment.amount = Except.ok token)
    (hDup : payments_insert db body.payment.amount body.payment.card_number Status.Approved
              = Except.error e)
    (hRel : svc.release_hold token = Except.ok ()) :
    (post svc db body).1 = PostOutcome.err 422 "card_number already used" ∧
    (post svc db body).2.1 = db ∧
    (post svc db body).2.2 =
      [SvcCall.place_hold body.payment.card_number body.payment.amount,
       SvcCall.release_hold token] ∧
    ((post svc db body).2.2.filter (fun c => match c with
        | SvcCall.release_hold _ => true
        | _ => false)).length = 1 := by
  unfold post
  rw [if_neg hAmt]
  simp [hHold, hDup, hRel]

/-- Witness for C5: re-using the card of the already-approved payment makes
persistence fail; the hold (token 7) is released exactly once and the handler
returns the conflict error with the database unchanged. -/
theorem post_duplicate_compensation_witness :
    ((123 : Int) ≠ 0 ∧
      svcAllOk.place_hold "4111" 123 = Except.ok 7 ∧
      payments_insert dbApproved 123 "4111" Status.Approved =
        Except.error "unique_violation" ∧
      svcAllOk.release_hold 7 = Except.ok ()) ∧
    ((post svcAllOk dbApproved ⟨⟨123, "4111"⟩⟩).1 =
        PostOutcome.err 422 "card_number already used" ∧
      (post svcAllOk dbApproved ⟨⟨123, "4111"⟩⟩).2.1 = dbApproved ∧
      (post svcAllOk dbApproved ⟨⟨123, "4111"⟩⟩).2.2 =
        [SvcCall.place_hold "4111" 123, SvcCall.release_hold 7] ∧
      ((post svcAllOk dbApproved ⟨⟨123, "4111"⟩⟩).2.2.filter (fun c => match c with
          | SvcCall.release_hold _ => true
          | _ => false)).length = 1) :=
  ⟨⟨by decide, by decide, by decide, by decide⟩,
   post_duplicate_compensation svcAllOk dbApproved ⟨⟨123, "4111"⟩⟩ 7 "unique_violation"
     (by decide) (by decide) (by decide) (by decide)⟩

/-- C7 (decline branches): when the account service reports
`invalid_account_number` or `insufficient_funds`, `post` returns a declined
`Ok` result (403 resp. 402) echoing the request's amount and card number with
status `Declined`, the database is unchanged, and only the hold was attempted. -/
theorem post_decline_branches (svc : AccountSvc) (db : Db) (body : RequestBody) (e : String)
    (hAmt : body.payment.amount ≠ 0)
    (hHold : svc.place_hold body.payment.card_number body.payment.amount = Except.error e)
    (hE : e = "invalid_account_number" ∨ e = "insufficient_funds") :
    (post svc db body).1 =
      PostOutcome.ok (if e = "invalid_account_number" then 403 else 402)
        ⟨0, body.payment.amount, body.payment.card_number, Status.Declined⟩ ∧
    (post svc db body).2.1 = db ∧
    (post svc db body).2.2 =
      [SvcCall.place_hold body.payment.card_number body.payment.amount] := by
  unfold post
  rw [if_neg hAmt]
  rcases hE with hE | hE <;> subst hE <;> simp [hHold]

/-- Witness for C7: a hold declined with `insufficient_funds` yields the 402
declined result echoing amount 1205 and the card number, with no persistence. -/
theorem post_decline_branches_witness :
    ((1205 : Int) ≠ 0 ∧
      (svcDecline "insufficient_funds").place_hold "4111" 1205 =
        Except.error "insufficient_funds") ∧
    ((post (svcDecline "insufficient_funds") dbEmpty ⟨⟨1205, "4111"⟩⟩).1 =
        PostOutcome.ok 402 ⟨0, 1205, "4111", Status.Declined⟩ ∧
      (post (svcDecline "insufficient_funds") dbEmpty ⟨⟨1205, "4111"⟩⟩).2.1 = dbEmpty ∧
      (post (svcDecline "insufficient_funds") dbEmpty ⟨⟨1205, "4111"⟩⟩).2.2 =
        [SvcCall.place_hold "4111" 1205]) :=
  ⟨⟨by decide, by decide⟩,
   post_decline_branches (svcDecline "insufficient_funds") dbEmpty ⟨⟨1205, "4111"⟩⟩
     "insufficient_funds" (by decide) (by decide) (Or.inr rfl)⟩

/-- C10 (validation accepts everything but zero): `post` rejects at the
validation step exactly when the amount is 0; for every other amount —
negative ones included — the first account-service call is `place_hold` with
that amount. -/
theorem post_place_hold_boundary (svc : AccountSvc) (db : Db) (body : RequestBody) :
    (body.payment.amount = 0 →
        (post svc db body).1 = PostOutcome.err 204 "zero amount" ∧
        (post svc db body).2.2 = []) ∧
    (body.payment.amount ≠ 0 →
        (post svc db body).2.2.head? =
          some (SvcCall.place_hold body.payment.card_number body.payment.amount)) := by
  constructor
  · intro h
    unfold post
    rw [if_pos h]
    exact ⟨rfl, rfl⟩
  · intro h
    unfold post
    rw [if_neg h]
    cases hp : svc.place_hold body.payment.card_number body.payment.amount with
    | ok token =>
        cases hi : payments_insert db body.payment.amount body.payment.card_number
            Status.Approved with
        | ok pr =>
            obtain ⟨pid, db1⟩ := pr
            cases hw : svc.withdraw_funds token with
            | ok u =>
                cases hg : payments_get db1 pid with
                | ok p => simp [hw, hg]
                | error e2 => simp [hw, hg]
            | error e2 => simp [hw]
        | error e2 =>
            cases hr : svc.release_hold token with
            | ok u => simp [hr]
            | error e2 => simp [hr]
    | error errmsg =>
        by_cases h1 : errmsg = "invalid_account_number"
        · simp [h1]
        · by_cases h2 : errmsg = "invalid_amount"
          · simp [h1, h2]
          · by_cases h3 : errmsg = "insufficient_funds"
            · simp [h1, h2, h3]
            · simp [h1, h2, h3]

/-- Witness for C10: a negative amount of -5 passes validation and `place_hold`
is invoked with that amount. -/
theorem post_place_hold_boundary_witness :
    (-5 : Int) ≠ 0 ∧
    (post svcAllOk dbEmpty ⟨⟨-5, "4111"⟩⟩).2.2.head? =
      some (SvcCall.place_hold "4111" (-5)) :=
  ⟨by decide, (post_place_hold_boundary svcAllOk dbEmpty ⟨⟨-5, "4111"⟩⟩).2 (by decide)⟩

/-- C8 fails on the code: the `get` handler unwraps the payment lookup, so it
echoes a stored payment (status 200) but panics — rather than returning a
NotFound result — when no payment with the requested id exists. -/
theorem get_handler_unwraps_missing :
    get_handler dbApproved 1 = PostOutcome.ok 200 ⟨1, 50, "4111", Status.Approved⟩ ∧
    get_handler dbApproved 9 = PostOutcome.panic := by decide
